import Mathlib

/-!
# Verification of the convex-lite realtime call-dispatch and invalidation core

This file gives a shallow embedding, in Lean 4, of the core protocol pieces of
the convex-lite repository: the wire-message model (`common/web-socket-types.ts`),
the client query cache (`getQueryCacheKey` and the optimistic `localStore`),
the client connection manager (reconnect backoff), the client mutation hook
(`useMutation.mutate`), and the server-side dispatch loop and handler registry
(`server/server.ts`).  Theorems at the end of the file settle the behavioural
claims about these components.
-/

namespace ConvexLite

/-! ## JavaScript values

JavaScript runtime values as far as the core protocol inspects them: JSON data
plus `undefined`.  Numbers are modelled as integers (the protocol code never
performs float-specific operations on payloads).  Objects are ordered field
lists, mirroring JavaScript's insertion-ordered object keys. -/

inductive JsValue where
  | undef
  | null
  | bool (b : Bool)
  | num (n : Int)
  | str (s : String)
  | arr (elems : List JsValue)
  | obj (fields : List (String × JsValue))
deriving Repr

/-- JavaScript truthiness test (`Boolean(v)` is `false`): `undefined`, `null`,
`false`, `0` and the empty string are falsy; every other modelled value is
truthy. -/
def JsValue.isFalsy : JsValue → Bool
  | .undef => true
  | .null => true
  | .bool b => !b
  | .num n => n == 0
  | .str s => s == ""
  | .arr _ => false
  | .obj _ => false

/-- `a || b` on JavaScript values: `b` when `a` is falsy, otherwise `a`. -/
def jsOr (a b : JsValue) : JsValue := if a.isFalsy then b else a

/-! ### JSON serialization

`JSON.stringify`, as used by `getQueryCacheKey` and by every `ws.send` call:
standard JSON rendering with string escaping; `undefined` array elements render
as `null` and `undefined` object fields are dropped, as in JavaScript. -/

/-- Escape one character for a JSON string literal. -/
def escapeJsonChar (c : Char) : String :=
  if c = '"' then "\\\""
  else if c = '\\' then "\\\\"
  else if c = '\n' then "\\n"
  else if c = '\r' then "\\r"
  else if c = '\t' then "\\t"
  else String.singleton c

/-- Escape a string for inclusion in a JSON string literal. -/
def escapeJsonString (s : String) : String :=
  String.join (s.toList.map escapeJsonChar)

mutual

/-- `JSON.stringify` on a JavaScript value (top-level `undefined` is rendered
like an array element, i.e. as `null`; the call sites in the sources never
stringify a bare `undefined`). -/
def jsonStringify : JsValue → String
  | .undef => "null"
  | .null => "null"
  | .bool true => "true"
  | .bool false => "false"
  | .num n => toString n
  | .str s => "\"" ++ escapeJsonString s ++ "\""
  | .arr elems => "[" ++ jsonStringifyArray elems ++ "]"
  | .obj fields => "\x7b" ++ jsonStringifyFields fields ++ "\x7d"

/-- Comma-separated rendering of array elements. -/
def jsonStringifyArray : List JsValue → String
  | [] => ""
  | [v] => jsonStringify v
  | v :: rest => jsonStringify v ++ "," ++ jsonStringifyArray rest

/-- Comma-separated rendering of object fields (an `undefined` field value is
dropped by `JSON.stringify`). -/
def jsonStringifyFields : List (String × JsValue) → String
  | [] => ""
  | (_, .undef) :: rest => jsonStringifyFields rest
  | [(k, v)] => "\"" ++ escapeJsonString k ++ "\":" ++ jsonStringify v
  | (k, v) :: rest =>
      "\"" ++ escapeJsonString k ++ "\":" ++ jsonStringify v ++ "," ++
        jsonStringifyFields rest

end

/-! ## Client query cache (`common/query-cache.ts`) -/

/-- `getQueryCacheKey(queryKeyString, params)` from the client cache module:
`JSON.stringify([queryKeyString, params || null])`. -/
def getQueryCacheKey (queryKeyString : String) (params : JsValue) : String :=
  jsonStringify (.arr [.str queryKeyString, jsOr params .null])

/-! ## Wire messages (`common/web-socket-types.ts`)

The tagged union of protocol frames.  Every variant inherits the optional
correlation `id` from `BaseMessage`; `params`/`args` are optional opaque
payloads.  (The `ErrorResponseMessage` interface also declares optional
`queryKey`/`mutationKey`/`error` fields; no code in the sources ever sets
them, so they are omitted here.)

An absent optional payload (`params?`/`args?`) reads as `undefined` in
JavaScript, so those fields are `JsValue`s with `JsValue.undef` standing for
absence. -/

inductive WireMessage where
  | query (id : Option String) (queryKey : String) (params : JsValue)
  | mutation (id : Option String) (mutationKey : String) (args : JsValue)
  | dataResponse (id : Option String) (queryKey : Option String) (data : JsValue)
  | requery (id : Option String) (queryKey : String)
  | error (id : Option String) (message : String)
deriving Repr

/-- The optional correlation id shared by all message variants. -/
def WireMessage.msgId : WireMessage → Option String
  | .query id _ _ => id
  | .mutation id _ _ => id
  | .dataResponse id _ _ => id
  | .requery id _ => id
  | .error id _ => id

/-! ## Association-list maps

`Map<string, T>` (and the reference-keyed registry map) are modelled as
association lists.  `Map.prototype.set` replaces the binding when the key is
already present and appends otherwise; `Map.prototype.get` returns the bound
value or `undefined`. -/

/-- `Map.prototype.get`. -/
def mapGet {κ α : Type} [DecidableEq κ] (m : List (κ × α)) (k : κ) : Option α :=
  match m with
  | [] => none
  | (k', v) :: rest => if k' = k then some v else mapGet rest k

/-- `Map.prototype.set`: replace an existing binding or append a new one. -/
def mapSet {κ α : Type} [DecidableEq κ] (m : List (κ × α)) (k : κ) (v : α) :
    List (κ × α) :=
  match m with
  | [] => [(k, v)]
  | (k', v') :: rest =>
      if k' = k then (k, v) :: rest else (k', v') :: mapSet rest k v

/-! ## Connection Manager (client, `common/connection-manager.ts`)

The `ConnectionManager` class owns the WebSocket, its status, and the
reconnect backoff counter.  Its observable state and the event handlers
registered in `connect()` are embedded below.  Wall-clock timers are modelled
by recording the delay passed to `setTimeout`; listener notification is
modelled by returning the list of statuses pushed to status listeners. -/

inductive ConnectionStatus where
  | connecting
  | connected
  | disconnected
deriving Repr, DecidableEq

/-- The fields of `ConnectionManager` relevant to the reconnect logic:
the public `status`, the private `reconnectAttempts` counter, and the
pending reconnect timer (`reconnectTimeoutId`), represented by the delay in
milliseconds the timer was armed with. -/
structure ConnManager where
  status : ConnectionStatus
  reconnectAttempts : Nat
  pendingReconnectDelay : Option Nat
deriving Repr, DecidableEq

/-- `private maxReconnectDelay = 30000`. -/
def maxReconnectDelay : Nat := 30000

/-- The delay computed by `scheduleReconnect`:
`Math.min(1000 * Math.pow(2, this.reconnectAttempts), this.maxReconnectDelay)`. -/
def reconnectDelay (attempts : Nat) : Nat :=
  min (1000 * 2 ^ attempts) maxReconnectDelay

/-- `private setStatus(newStatus)`: update `status` and notify the status
listeners, but only when the status actually changed.  Returns the updated
manager together with the list of notifications pushed to listeners. -/
def setStatus (m : ConnManager) (newStatus : ConnectionStatus) :
    ConnManager × List ConnectionStatus :=
  if m.status = newStatus then (m, [])
  else ({ m with status := newStatus }, [newStatus])

/-- `private scheduleReconnect()`: when `reconnectAttempts >= 10`, log
"Max reconnect attempts reached. Giving up." and return without scheduling
anything or touching the state; otherwise arm the reconnect timer with the
exponential-backoff delay.  The second component collects `console.error`
output, the third the status notifications (the give-up branch produces
none). -/
def scheduleReconnect (m : ConnManager) :
    ConnManager × List String × List ConnectionStatus :=
  if m.reconnectAttempts ≥ 10 then
    (m, ["[Convex-Lite] WebSocket: Max reconnect attempts reached. Giving up."], [])
  else
    ({ m with pendingReconnectDelay := some (reconnectDelay m.reconnectAttempts) },
      [], [])

/-- The `ws.onopen` handler: `setStatus("connected")` then
`reconnectAttempts = 0`.  Returns the manager and the status notifications. -/
def onOpen (m : ConnManager) : ConnManager × List ConnectionStatus :=
  let (m', notifs) := setStatus m .connected
  ({ m' with reconnectAttempts := 0 }, notifs)

/-- The `ws.onclose` handler: clear the socket, transition to
`disconnected` (unless already there), then `scheduleReconnect()`. -/
def onClose (m : ConnManager) :
    ConnManager × List String × List ConnectionStatus :=
  let (m', notifs) :=
    if m.status ≠ .disconnected then setStatus m .disconnected else (m, [])
  let (m'', logs, notifs') := scheduleReconnect m'
  (m'', logs, notifs ++ notifs')

/-- The reconnect timer firing: `reconnectAttempts++` then `connect()`; for a
manager with no live socket, `connect()` clears the pending timer and moves to
`connecting`. -/
def onReconnectTimer (m : ConnManager) : ConnManager × List ConnectionStatus :=
  let m' := { m with reconnectAttempts := m.reconnectAttempts + 1,
                     pendingReconnectDelay := none }
  setStatus m' .connecting

/-- The `ws.onmessage` handler of `ConnectionManager.connect`:

```
this.ws.onmessage = (event) => {
  const message = JSON.parse(event.data);
  this.messageListeners.forEach((listener) => listener(message));
};
```

`JSON.parse` is the JavaScript builtin; its outcome on the raw frame is the
`parsed` argument (`Except.error` carries the `SyntaxError` it throws on
invalid JSON).  Registered message listeners are identified by tokens of an
arbitrary type `Λ`; the result lists the invocations `(listener, message)`
performed, or propagates the parse exception out of the handler — there is no
`try`/`catch` around the parse, so no listener runs on a malformed frame. -/
def connectionOnMessage {Λ : Type} (messageListeners : List Λ)
    (parsed : Except String JsValue) : Except String (List (Λ × JsValue)) :=
  match parsed with
  | .error e => .error e
  | .ok message => .ok (messageListeners.map (fun listener => (listener, message)))

/-! ## The mutation hook (`src/hooks/use-convex-lite.ts`, `useMutation`)

`mutate(mutateArgs)` returns a promise whose executor runs synchronously:
it first applies an attached optimistic-update function (if any) against the
`localStore` view of the query cache, then flips the loading flag, sends the
`MUTATION` frame, and subscribes a response listener keyed by the request id.

A user-supplied optimistic-update function receives `(localStore, args)` and
may interleave `localStore.getQuery` reads, `localStore.setQuery` writes and
arbitrary computation, and may throw; it is modelled as a small interaction
program against the cache. -/

/-- The client `queryCache` singleton's backing `Map<string, any>`. -/
abbrev QueryCacheMap := List (String × JsValue)

/-- What an optimistic-update function can do with the `localStore` capability:
read a query's cached value, write one, finish, or throw.  The continuation of
a read receives the cached value (`none` = `undefined`), so the program can
branch on cache contents exactly as the JavaScript closure can. -/
inductive OptimisticProg where
  | done
  | throwErr (exn : String)
  | getQuery (queryKey : String) (args : JsValue)
      (k : Option JsValue → OptimisticProg)
  | setQuery (queryKey : String) (args : JsValue) (value : JsValue)
      (rest : OptimisticProg)

/-- Run an optimistic-update program against the query cache.
`localStore.getQuery`/`setQuery` derive the cache key with `getQueryCacheKey`
(the function reference cast to its key string) and then call `queryCache.get`
and `queryCache.set`.  Returns the cache after the run, the ordered list of
cache writes performed, and the exception if the program threw.  Writes made
before a throw stay applied — a JavaScript `throw` does not undo earlier
`queryCache.set` calls. -/
def runOptimistic : OptimisticProg → QueryCacheMap →
    QueryCacheMap × List (String × JsValue) × Option String
  | .done, cache => (cache, [], none)
  | .throwErr exn, cache => (cache, [], some exn)
  | .getQuery queryKey args k, cache =>
      runOptimistic (k (mapGet cache (getQueryCacheKey queryKey args))) cache
  | .setQuery queryKey args value rest, cache =>
      let key := getQueryCacheKey queryKey args
      let (cache', writes, exn) := runOptimistic rest (mapSet cache key value)
      (cache', (key, value) :: writes, exn)

/-- The React state owned by one `useMutation` hook, together with the shared
query cache it writes through `localStore`. -/
structure MutationHookState where
  cache : QueryCacheMap
  isLoading : Bool
  error : Option WireMessage

/-- The externally observable actions `mutate` performs, in program order. -/
inductive MutateEffect where
  | cacheWrite (key : String) (value : JsValue)
  | setLoading (b : Bool)
  | clearError
  | sendMessage (msg : WireMessage)
  | rejectPromise (exn : String)
deriving Repr

/-- The synchronous part of one `mutate(mutateArgs)` call. -/
structure MutateOutcome where
  state : MutationHookState
  effects : List MutateEffect
  /-- `some e` iff the promise was rejected synchronously inside `mutate`
  (the optimistic update threw `e`). -/
  rejectedWith : Option String

/-- The tail of `mutate` shared by both paths into the network send:
`setIsLoading(true); setError(null);` construct the `MUTATION` frame carrying
the fresh `requestId` and `connectionManager.sendMessage` it. -/
def mutateSend (st : MutationHookState) (writeEffects : List MutateEffect)
    (mutationKeyString : String) (mutateArgs : JsValue) (requestId : String) :
    MutateOutcome :=
  { state := { st with isLoading := true, error := none },
    effects := writeEffects ++
      [.setLoading true, .clearError,
       .sendMessage (.mutation (some requestId) mutationKeyString mutateArgs)],
    rejectedWith := none }

/-- `useMutation(...).mutate(mutateArgs)`, synchronous phase (the promise
executor).  With an attached optimistic update, the update runs first against
the cache; if it throws, the promise is rejected with the exception and
`mutate` returns — no loading flag, no send.  Otherwise the loading flag is
set and the `MUTATION` frame is sent.  `requestId` is the `uuidv4()` value
drawn by this call. -/
def mutate (st : MutationHookState) (optimistic : Option OptimisticProg)
    (mutationKeyString : String) (mutateArgs : JsValue) (requestId : String) :
    MutateOutcome :=
  match optimistic with
  | some prog =>
      let (cache', writes, exn) := runOptimistic prog st.cache
      let writeEffects := writes.map (fun w => MutateEffect.cacheWrite w.1 w.2)
      match exn with
      | some e =>
          { state := { st with cache := cache' },
            effects := writeEffects ++ [.rejectPromise e],
            rejectedWith := some e }
      | none =>
          mutateSend { st with cache := cache' } writeEffects
            mutationKeyString mutateArgs requestId
  | none => mutateSend st [] mutationKeyString mutateArgs requestId

/-- The response listener `mutate` subscribes: ignore frames whose `id`
differs from this call's `requestId`; on a matching `DATA_UPDATE`, clear the
loading flag and resolve; on a matching `ERROR`, clear the loading flag,
record the error and reject.  The cache is never touched here — in
particular an error response does not roll back the optimistic write.
Returns the updated hook state, the promise settlement (if any), and whether
the listener unsubscribed itself. -/
def mutationResponseListener (st : MutationHookState) (requestId : String)
    (message : WireMessage) :
    MutationHookState × Option (Except WireMessage JsValue) × Bool :=
  if message.msgId ≠ some requestId then (st, none, false)
  else
    match message with
    | .dataResponse _ _ data =>
        ({ st with isLoading := false }, some (.ok data), true)
    | .error _ _ =>
        ({ st with isLoading := false, error := some message },
          some (.error message), true)
    | _ => (st, none, false)

/-! ## Handler registry (`server/server.ts`, `loadApiHandlersFromDirectory`)

The server scans the API directories at startup; for every imported module it
walks the exported values and registers each function export: names starting
with `get` or `list` go into `queryHandlers`, every other function export
into `mutationHandlers` (plus, when present, the module's
`affectedTablesBy<Base>Api` metadata object entry for that export into
`mutationAffectedTables`).  All three registries are `Map`s keyed by the bare
export name.  The registries are polymorphic in the handler representation
`α` (a JavaScript function value, identified only up to reference). -/

structure ApiRegistries (α : Type) where
  queryHandlers : List (String × α)
  mutationHandlers : List (String × α)
  mutationAffectedTables : List (String × List String)

/-- The empty registries the module-level `Map`s start out as. -/
def emptyRegistries (α : Type) : ApiRegistries α := ⟨[], [], []⟩

/-- One imported API module, as the loader sees it:  the file's base name
(without extension), the exports with `typeof === "function"` in declaration
order, and the non-function exports that look like affected-tables metadata
objects (export name ↦ (mutation name ↦ table list)). -/
structure ApiModule (α : Type) where
  fileBaseName : String
  functionExports : List (String × α)
  objectExports : List (String × List (String × List String))

/-- `String.prototype.startsWith`, computed on character lists. -/
def stringStartsWith (s pre : String) : Bool :=
  pre.toList.isPrefixOf s.toList

/-- `exportName.startsWith("get") || exportName.startsWith("list")` — the
loader's query/mutation classification. -/
def isQueryExportName (name : String) : Bool :=
  stringStartsWith name "get" || stringStartsWith name "list"

/-- First character to upper case, as in
`baseName.charAt(0).toUpperCase() + baseName.slice(1)`. -/
def capitalizeFirst (s : String) : String :=
  match s.toList with
  | [] => ""
  | c :: rest => String.mk (c.toUpper :: rest)

/-- `` `affectedTablesBy${capitalizedBaseName}Api` `` where the base name is
the file name with a trailing `_api` stripped (`.replace(/_api$/, "")`),
computed on character lists. -/
def metadataExportName (fileBaseName : String) : String :=
  let cs := fileBaseName.toList
  let base :=
    if ("_api".toList).isSuffixOf cs then String.mk (cs.take (cs.length - 4))
    else fileBaseName
  "affectedTablesBy" ++ capitalizeFirst base ++ "Api"

/-- Register one function export of a module: classify by name prefix,
`Map.set` into the matching registry (silently replacing any existing binding
for that name), and for a mutation also look up the module's affected-tables
metadata for this export. -/
def registerExport {α : Type} (m : ApiModule α) (regs : ApiRegistries α)
    (exportName : String) (handler : α) : ApiRegistries α :=
  if isQueryExportName exportName then
    { regs with queryHandlers := mapSet regs.queryHandlers exportName handler }
  else
    let regs' :=
      { regs with
        mutationHandlers := mapSet regs.mutationHandlers exportName handler }
    match mapGet m.objectExports (metadataExportName m.fileBaseName) with
    | some meta =>
        match mapGet meta exportName with
        | some tables =>
            { regs' with
                mutationAffectedTables :=
                  mapSet regs'.mutationAffectedTables exportName tables }
        | none => regs'
    | none => regs'

/-- Register every function export of one module, in declaration order. -/
def registerModule {α : Type} (regs : ApiRegistries α) (m : ApiModule α) :
    ApiRegistries α :=
  m.functionExports.foldl (fun r e => registerExport m r e.1 e.2) regs

/-- `loadApiHandlers`: fold module registration over all modules discovered in
the API directories, in scan order, starting from the empty registries. -/
def loadApiHandlers {α : Type} (modules : List (ApiModule α)) :
    ApiRegistries α :=
  modules.foldl registerModule (emptyRegistries α)

/-! ## Dispatch engine (`server/server.ts`, `wss.on("connection")` handler)

The per-frame `ws.on("message")` callback.  A handler in this registry design
is a plain async function `(context, args) => result`; during its execution it
may call `context.broadcastQueryUpdate(queryKey, data)`, which fans a
`DATA_UPDATE` frame out to every connected client.  A handler run is
therefore modelled as the pair of its settled result (`Except.error` = the
rejection/throw, rendered as its message text) and the ordered
`broadcastQueryUpdate` calls it made before settling.  The data-store handle
is modelled as the table-fetch capability the dispatch loop itself uses for
the affected-tables broadcast. -/

/-- `HandlerContext.db`, reduced to the table fetch
`db.select().from(appSchema[tableName])` performed by the dispatch loop. -/
structure HandlerContext where
  db : String → List JsValue

/-- One settled handler execution. -/
structure HandlerRun where
  result : Except String JsValue
  broadcasts : List (String × JsValue)

/-- A registered handler function. -/
abbrev Handler := HandlerContext → JsValue → HandlerRun

/-- An outbound frame, either to the originating socket (`ws.send`) or fanned
out to every connected client (the broadcast helpers). -/
inductive Outbound where
  | toOrigin (msg : WireMessage)
  | toAll (msg : WireMessage)
deriving Repr

/-- `broadcastQueryUpdateForHandler(queryKey, data)`: a `DATA_UPDATE` frame
without correlation id, sent to every connected client. -/
def broadcastFrame (queryKey : String) (data : JsValue) : Outbound :=
  .toAll (.dataResponse none (some queryKey) data)

/-- The affected-tables broadcasts after a successful mutation: for each
table registered for this mutation key, fetch the table's rows and broadcast
them under the `get_admin_table_data` query key as
`{ table: tableName, data: rows }`. -/
def affectedTableBroadcasts (regs : ApiRegistries Handler)
    (ctx : HandlerContext) (mutationKey : String) : List Outbound :=
  match mapGet regs.mutationAffectedTables mutationKey with
  | some affected =>
      affected.map (fun tableName =>
        broadcastFrame "get_admin_table_data"
          (.obj [("table", .str tableName), ("data", .arr (ctx.db tableName))]))
  | none => []

/-- Dispatch of one successfully parsed frame, returning the outbound frames
in send order.  `QUERY`: resolve in `queryHandlers`; missing key → a single
`ERROR` echoing the request id and naming the key; found → run the handler on
`params || {}` and answer with a `DATA_UPDATE` (carrying the query key) or an
`ERROR` echoing the id.  `MUTATION`: the same against `mutationHandlers`
(the `DATA_UPDATE` carries no query key), followed on success by the
affected-tables broadcasts.  A frame that is neither `QUERY` nor `MUTATION`
falls through both branches and produces nothing (this handler has no `else`
arm). -/
def handleParsedMessage (regs : ApiRegistries Handler) (ctx : HandlerContext) :
    WireMessage → List Outbound
  | .query id queryKey params =>
      match mapGet regs.queryHandlers queryKey with
      | some handler =>
          let run := handler ctx (jsOr params (.obj []))
          (run.broadcasts.map fun b => broadcastFrame b.1 b.2) ++
            match run.result with
            | .ok result => [.toOrigin (.dataResponse id (some queryKey) result)]
            | .error e =>
                [.toOrigin (.error id
                  ("Error in query " ++ queryKey ++ ": " ++ e))]
      | none =>
          [.toOrigin (.error id ("Unknown query handler for key: " ++ queryKey))]
  | .mutation id mutationKey args =>
      match mapGet regs.mutationHandlers mutationKey with
      | some handler =>
          let run := handler ctx (jsOr args (.obj []))
          (run.broadcasts.map fun b => broadcastFrame b.1 b.2) ++
            match run.result with
            | .ok result =>
                .toOrigin (.dataResponse id none result) ::
                  affectedTableBroadcasts regs ctx mutationKey
            | .error e =>
                [.toOrigin (.error id
                  ("Error in mutation " ++ mutationKey ++ ": " ++ e))]
      | none =>
          [.toOrigin
            (.error id ("Unknown mutation handler for key: " ++ mutationKey))]
  | _ => []

/-- The whole `ws.on("message")` callback: `JSON.parse` the raw frame inside
`try`/`catch` (the outcome, with the exception message on failure, is the
`parsed` argument; a successful parse is cast to `WebSocketMessage` without
further checks), answer a parse failure with a single id-less `ERROR` and
stop, otherwise dispatch the parsed frame. -/
def handleRawMessage (regs : ApiRegistries Handler) (ctx : HandlerContext)
    (parsed : Except String WireMessage) : List Outbound :=
  match parsed with
  | .error e =>
      [.toOrigin (.error none ("Invalid JSON message format: " ++ e))]
  | .ok m => handleParsedMessage regs ctx m

/-! ## Invalidation Broadcaster

The repository sources declare the `scheduler.invalidate` capability
(`convex/server.ts`, `HandlerContext.scheduler.invalidate : (queryRef) =>
Promise<void>`) and call it from mutation handlers (`convex/tasks.ts` et
al.), but the dispatch-engine module that implements it is not among the
sources.  Its behaviour is therefore modelled from the specification. -/

/-- A handler function reference, identified — as a JavaScript function value
used as a reference-keyed map key is — purely by its identity. -/
abbrev HandlerRef := Nat

/-- What one `invalidate` call did: the frames sent, per connection, and the
server-side log lines.  `invalidate` always returns normally (the model is a
total function), so nothing can propagate into the calling mutation. -/
structure InvalidateResult where
  sent : List (Nat × WireMessage)
  logs : List String
deriving Repr

/-- Modelled from the spec: `invalidate(queryReference)` of the Invalidation
Broadcaster, whose implementation is missing from the sources.  Resolve the
query handler reference to its registry key through the reference-keyed
reverse map (`resolveKeyByReference`); on success send a `REQUERY` frame
carrying the resolved key to every currently-open connection; on failure log
the programming error and broadcast nothing.  `reverseMap` is the registry's
reference → key map, `connections` the server's connection set together with
each socket's open/closed state. -/
def invalidate (reverseMap : List (HandlerRef × String))
    (connections : List (Nat × Bool)) (queryRef : HandlerRef) :
    InvalidateResult :=
  match mapGet reverseMap queryRef with
  | some key =>
      { sent := (connections.filter (fun c => c.2)).map
          (fun c => (c.1, .requery none key)),
        logs := [] }
  | none =>
      { sent := [],
        logs := ["invalidate: could not resolve query reference to a registered key"] }

/-! ## Validation Layer

The handler shape of the final registry design declares an optional Zod
argument schema (`convex/server.ts`, `WrappedApiFunction.args?: ZodObject`),
and the spec describes a validation layer gating every dispatched call on it;
the dispatch module implementing that gate is not among the sources, so it is
modelled from the specification.  A schema is modelled by its validation
behaviour: a function from the raw payload to either a field-level diagnostic
map or the validated (possibly coerced/defaulted) value. -/

/-- A declared argument schema, abstracted to its validation function
(an external schema-validation library per the spec).  `Except.error` carries
the path ↦ message diagnostic map. -/
abbrev ArgSchema := JsValue → Except (List (String × String)) JsValue

/-- A handler definition of the final design: kind, optional argument schema,
and the execute function (which receives `none` when the handler declares no
arguments). -/
structure SpecHandlerDef where
  isMutation : Bool
  argumentSchema : Option ArgSchema
  execute : Option JsValue → Except String JsValue

/-- `rawArgs` is "empty/absent": no payload field, an explicit `null`, or an
empty object. -/
def isEmptyArgs : JsValue → Bool
  | .undef => true
  | .null => true
  | .obj [] => true
  | _ => false

/-- Modelled from the spec: `validate(handlerDefinition, rawArgs)` of the
missing validation layer.  No declared schema: a non-empty payload is a
`ValidationError` ("this call accepts no arguments"), otherwise the handler
runs without arguments.  Declared schema: run it; on success the *validated*
value — not the raw input — is what the handler will receive. -/
def specValidate (schema : Option ArgSchema) (rawArgs : JsValue) :
    Except (List (String × String)) (Option JsValue) :=
  match schema with
  | none =>
      if isEmptyArgs rawArgs then .ok none
      else .error [("", "this call accepts no arguments")]
  | some s =>
      match s rawArgs with
      | .ok validated => .ok (some validated)
      | .error diagnostics => .error diagnostics

/-- The terminal outcome of dispatching one call in the spec's state machine. -/
inductive SpecCallResult where
  | validationError (diagnostics : List (String × String))
  | executionError (message : String)
  | success (data : JsValue)

/-- What a dispatched call did: whether (and with which arguments) the
handler's execute function was invoked, and the terminal result. -/
structure SpecDispatchOutcome where
  executedWith : Option (Option JsValue)
  result : SpecCallResult

/-- Modelled from the spec: the `Resolved → Validated → Executed` segment of
the dispatch state machine for an already-resolved handler.  Validation
failure stops the call with a `ValidationError`; on success the handler's
execute function is invoked with the validated arguments. -/
def specDispatch (h : SpecHandlerDef) (rawArgs : JsValue) :
    SpecDispatchOutcome :=
  match specValidate h.argumentSchema rawArgs with
  | .error diagnostics =>
      { executedWith := none, result := .validationError diagnostics }
  | .ok validated =>
      match h.execute validated with
      | .ok data => { executedWith := some validated, result := .success data }
      | .error e =>
          { executedWith := some validated, result := .executionError e }

/-! ## Helper lemmas -/

/-- `Map.set` followed by `Map.get` at the same key returns the just-set
value, whether or not the key was already bound. -/
theorem mapGet_mapSet_self {κ α : Type} [DecidableEq κ]
    (m : List (κ × α)) (k : κ) (v : α) : mapGet (mapSet m k v) k = some v := by
  induction m with
  | nil => simp [mapSet, mapGet]
  | cons hd tl ih =>
      obtain ⟨k', v'⟩ := hd
      by_cases h : k' = k <;> simp [mapSet, mapGet, h, ih]

/-! ## Claims -/

/-- C1: every `invalidate` call with a query handler reference resolves the
reference through the registry's reverse map; on success a `REQUERY` frame
carrying the resolved key is sent to every currently-open connection (fan-out
over exactly the open ones); on resolution failure nothing is sent, the
failure is logged, and — `invalidate` being a total function — no error
reaches the calling mutation's result path. -/
theorem invalidate_requery_fanout
    (reverseMap : List (HandlerRef × String)) (connections : List (Nat × Bool))
    (queryRef : HandlerRef) :
    (∀ key, mapGet reverseMap queryRef = some key →
      (invalidate reverseMap connections queryRef).sent =
        (connections.filter (fun c => c.2)).map
          (fun c => (c.1, WireMessage.requery none key)) ∧
      (invalidate reverseMap connections queryRef).logs = []) ∧
    (mapGet reverseMap queryRef = none →
      (invalidate reverseMap connections queryRef).sent = [] ∧
      (invalidate reverseMap connections queryRef).logs ≠ []) := by
  constructor
  · intro key hres
    simp [invalidate, hres]
  · intro hres
    simp [invalidate, hres]

/-- Witness for C1: with the reverse map binding reference `7` to
`"tasks:getAllColumnsWithTasks"`, invalidating reference `7` while
connections `1` and `2` are open and `3` is closed sends the `REQUERY` to
exactly `1` and `2`; invalidating an unregistered reference sends nothing
and logs. -/
theorem invalidate_requery_fanout_witness :
    (invalidate [(7, "tasks:getAllColumnsWithTasks")]
        [(1, true), (2, true), (3, false)] 7).sent =
      [(1, WireMessage.requery none "tasks:getAllColumnsWithTasks"),
       (2, WireMessage.requery none "tasks:getAllColumnsWithTasks")] ∧
    (invalidate [(7, "tasks:getAllColumnsWithTasks")] [(1, true)] 9).sent = [] ∧
    (invalidate [(7, "tasks:getAllColumnsWithTasks")] [(1, true)] 9).logs ≠ [] := by
  refine ⟨?_, ?_, ?_⟩
  · exact (((invalidate_requery_fanout [(7, "tasks:getAllColumnsWithTasks")]
      [(1, true), (2, true), (3, false)] 7).1 "tasks:getAllColumnsWithTasks"
      rfl).1).trans rfl
  · exact ((invalidate_requery_fanout [(7, "tasks:getAllColumnsWithTasks")]
      [(1, true)] 9).2 rfl).1
  · exact ((invalidate_requery_fanout [(7, "tasks:getAllColumnsWithTasks")]
      [(1, true)] 9).2 rfl).2

/-- C2 counterexample: the params `0` and `false` differ, yet
`getQueryCacheKey` produces the identical cache key for them (both are falsy,
and `params || null` coerces every falsy params value to `null`), refuting
"for every pair of calls with the same callKey but differing params,
getQueryCacheKey produces different cache keys". -/
theorem getQueryCacheKey_falsy_collision :
    getQueryCacheKey "tasks:getTasks" (.num 0) =
      getQueryCacheKey "tasks:getTasks" (.bool false) ∧
    JsValue.num 0 ≠ JsValue.bool false :=
  ⟨rfl, fun h => JsValue.noConfusion h⟩

/-- C2 (amended): cache-key derivation is deterministic — structurally equal
`(callKey, params)` map to the identical cache key — but differing params do
not always produce different keys: `params || null` coerces every falsy
params value (`undefined`, `null`, `false`, `0`, `""`) to `null`, so all such
values share a single cache key. -/
theorem getQueryCacheKey_deterministic_falsy_coalesce :
    (∀ (key : String) (p₁ p₂ : JsValue), p₁ = p₂ →
        getQueryCacheKey key p₁ = getQueryCacheKey key p₂) ∧
    (∀ (key : String) (p₁ p₂ : JsValue), p₁.isFalsy → p₂.isFalsy →
        getQueryCacheKey key p₁ = getQueryCacheKey key p₂) := by
  constructor
  · intro key p₁ p₂ h
    rw [h]
  · intro key p₁ p₂ h₁ h₂
    simp [getQueryCacheKey, jsOr, h₁, h₂]

/-- Witness for C2 (amended), at concrete inputs: equal params give the equal
key, and the falsy params `0` and `""` share one key. -/
theorem getQueryCacheKey_deterministic_falsy_coalesce_witness :
    getQueryCacheKey "counter:getCounter" (.num 3) =
      getQueryCacheKey "counter:getCounter" (.num 3) ∧
    getQueryCacheKey "counter:getCounter" (.num 0) =
      getQueryCacheKey "counter:getCounter" (.str "") :=
  ⟨getQueryCacheKey_deterministic_falsy_coalesce.1 "counter:getCounter"
      (.num 3) (.num 3) rfl,
   getQueryCacheKey_deterministic_falsy_coalesce.2 "counter:getCounter"
      (.num 0) (.str "") rfl rfl⟩

/-- C3: in the spec-modelled validation pipeline, a dispatched call whose
handler declares no argument schema fails with the "accepts no arguments"
`ValidationError` on any non-empty payload (the handler never runs), and a
call whose handler declares a schema that validates hands the handler the
schema's output — the validated, coerced/defaulted value — never the raw
client input. -/
theorem specDispatch_validation_gate :
    (∀ (h : SpecHandlerDef) (raw : JsValue), h.argumentSchema = none →
      isEmptyArgs raw = false →
      (specDispatch h raw).executedWith = none ∧
      (specDispatch h raw).result =
        .validationError [("", "this call accepts no arguments")]) ∧
    (∀ (h : SpecHandlerDef) (s : ArgSchema) (raw validated : JsValue),
      h.argumentSchema = some s → s raw = .ok validated →
      (specDispatch h raw).executedWith = some (some validated)) := by
  constructor
  · intro h raw hschema hraw
    simp [specDispatch, specValidate, hschema, hraw]
  · intro h s raw validated hschema hvalid
    simp only [specDispatch, specValidate, hschema, hvalid]
    cases h.execute (some validated) <;> simp

/-- Witness for C3: a schemaless handler dispatched with payload `1` is not
executed and yields the `ValidationError`; a handler whose schema fills the
default `{name: "anon"}` from the empty payload `{}` is executed with the
defaulted value, not the raw `{}`. -/
theorem specDispatch_validation_gate_witness :
    (specDispatch ⟨false, none, fun _ => .ok .null⟩ (.num 1)).executedWith =
      none ∧
    (specDispatch
        ⟨true, some (fun _ => .ok (.obj [("name", .str "anon")])),
         fun _ => .ok .null⟩ (.obj [])).executedWith =
      some (some (.obj [("name", .str "anon")])) :=
  ⟨(specDispatch_validation_gate.1 ⟨false, none, fun _ => .ok .null⟩ (.num 1)
      rfl rfl).1,
   specDispatch_validation_gate.2
      ⟨true, some (fun _ => .ok (.obj [("name", .str "anon")])),
       fun _ => .ok .null⟩ _ (.obj []) _ rfl rfl⟩

/-- C4 counterexample: loading the module `counter_api` exporting function
`getCounter` (reference `1`) and then the module `other_api` also exporting
`getCounter` (reference `2`) registers the second handler under the bare key
`"getCounter"`, silently replacing the first — no module-prefixed key such as
`"counter:getCounter"` exists, no collision is detected, and startup
completes normally.  This refutes both the `"<moduleKeyPrefix><exportName>"`
key shape and "a fatal startup error rather than a silent overwrite". -/
theorem loadApiHandlers_silent_overwrite :
    mapGet (loadApiHandlers (α := Nat)
        [⟨"counter_api", [("getCounter", 1)], []⟩,
         ⟨"other_api", [("getCounter", 2)], []⟩]).queryHandlers
      "getCounter" = some 2 ∧
    mapGet (loadApiHandlers (α := Nat)
        [⟨"counter_api", [("getCounter", 1)], []⟩,
         ⟨"other_api", [("getCounter", 2)], []⟩]).queryHandlers
      "counter:getCounter" = none := by
  constructor <;> decide

/-- C4 (amended): each exported handler function is indexed under its bare
export name (no module-key prefix) — names starting `get`/`list` into the
query registry, all others into the mutation registry — and registering a
second handler under an already-present key silently overwrites the earlier
binding (`Map.set`, last registration wins); there is no uniqueness check
and no startup error. -/
theorem registerExport_bare_name_last_wins :
    (∀ (α : Type) (m : ApiModule α) (regs : ApiRegistries α)
       (exportName : String) (handler : α),
       isQueryExportName exportName = true →
       mapGet (registerExport m regs exportName handler).queryHandlers
         exportName = some handler) ∧
    (∀ (α : Type) (m : ApiModule α) (regs : ApiRegistries α)
       (exportName : String) (handler : α),
       isQueryExportName exportName = false →
       mapGet (registerExport m regs exportName handler).mutationHandlers
         exportName = some handler) := by
  constructor
  · intro α m regs exportName handler hname
    simp [registerExport, hname, mapGet_mapSet_self]
  · intro α m regs exportName handler hname
    cases hmeta : mapGet m.objectExports (metadataExportName m.fileBaseName) with
    | none => simp [registerExport, hname, hmeta, mapGet_mapSet_self]
    | some meta =>
        cases htab : mapGet meta exportName with
        | none => simp [registerExport, hname, hmeta, htab, mapGet_mapSet_self]
        | some tables =>
            simp [registerExport, hname, hmeta, htab, mapGet_mapSet_self]

/-- Witness for C4 (amended): registering `getCounter` (reference `2`) over a
registry that already binds `getCounter` to reference `1` yields a registry
answering `getCounter` with reference `2`; registering the mutation-named
`createTask` binds it in the mutation registry. -/
theorem registerExport_bare_name_last_wins_witness :
    mapGet (registerExport (α := Nat) ⟨"other_api", [("getCounter", 2)], []⟩
        ⟨[("getCounter", 1)], [], []⟩ "getCounter" 2).queryHandlers
      "getCounter" = some 2 ∧
    mapGet (registerExport (α := Nat) ⟨"tasks", [("createTask", 5)], []⟩
        ⟨[], [], []⟩ "createTask" 5).mutationHandlers
      "createTask" = some 5 :=
  ⟨registerExport_bare_name_last_wins.1 Nat
      ⟨"other_api", [("getCounter", 2)], []⟩ ⟨[("getCounter", 1)], [], []⟩
      "getCounter" 2 (by decide),
   registerExport_bare_name_last_wins.2 Nat
      ⟨"tasks", [("createTask", 5)], []⟩ ⟨[], [], []⟩ "createTask" 5
      (by decide)⟩

/-- C5: dispatching an inbound `QUERY` frame whose `queryKey` is absent from
the query-handler registry sends exactly one `ERROR` frame, to the
originating socket only, with `id` equal to the request's `id` and a message
text containing the unknown key — and nothing else is sent for that
request. -/
theorem unknown_query_key_single_error
    (regs : ApiRegistries Handler) (ctx : HandlerContext)
    (id : Option String) (queryKey : String) (params : JsValue)
    (h : mapGet regs.queryHandlers queryKey = none) :
    handleRawMessage regs ctx (.ok (.query id queryKey params)) =
      [.toOrigin (.error id ("Unknown query handler for key: " ++ queryKey))] ∧
    ∃ s₁ s₂,
      "Unknown query handler for key: " ++ queryKey = s₁ ++ queryKey ++ s₂ := by
  refine ⟨?_, "Unknown query handler for key: ", "", by simp⟩
  simp [handleRawMessage, handleParsedMessage, h]

/-- Witness for C5: against empty registries, the query `"doesNotExist"` with
request id `"req-1"` yields exactly the one `ERROR` echoing `"req-1"` and
naming the key. -/
theorem unknown_query_key_single_error_witness :
    handleRawMessage (emptyRegistries Handler) ⟨fun _ => []⟩
        (.ok (.query (some "req-1") "doesNotExist" .undef)) =
      [.toOrigin (.error (some "req-1")
        ("Unknown query handler for key: " ++ "doesNotExist"))] :=
  (unknown_query_key_single_error (emptyRegistries Handler) ⟨fun _ => []⟩
    (some "req-1") "doesNotExist" .undef rfl).1

/-- C6 counterexample: at the attempt cap (`reconnectAttempts = 10`) the
manager gives up *silently*: `scheduleReconnect` leaves the state untouched
(status stays `disconnected`, nothing is scheduled), pushes no status
notification to subscribers, and only writes a `console.error` line — no
permanent-failure status is surfaced (the status type has no such value),
refuting "stops retrying ... and then surfaces a permanent-failure
status". -/
theorem scheduleReconnect_gives_up_silently :
    scheduleReconnect ⟨.disconnected, 10, none⟩ =
      (⟨.disconnected, 10, none⟩,
       ["[Convex-Lite] WebSocket: Max reconnect attempts reached. Giving up."],
       []) := rfl

/-- C6 (amended): on every close the manager schedules reconnection with
delay `min (1000 · 2^attempts) 30000` — 1s doubling per consecutive failed
attempt, capped at 30s — and stops retrying after 10 attempts, after which it
only logs an error (no status notification; the status simply remains
`disconnected`); on every successful open the backoff counter resets to
zero. -/
theorem reconnect_backoff_behaviour :
    reconnectDelay 0 = 1000 ∧
    (∀ n, reconnectDelay (n + 1) = min (2 * reconnectDelay n) 30000) ∧
    (∀ n, reconnectDelay n ≤ 30000) ∧
    (∀ m : ConnManager, m.reconnectAttempts < 10 →
      (onClose m).1.pendingReconnectDelay =
        some (reconnectDelay m.reconnectAttempts) ∧
      (onClose m).1.status = .disconnected) ∧
    (∀ m : ConnManager, 10 ≤ m.reconnectAttempts →
      (scheduleReconnect m).1 = m ∧
      (scheduleReconnect m).2.2 = [] ∧
      (scheduleReconnect m).2.1 ≠ []) ∧
    (∀ m : ConnManager,
      (onOpen m).1.reconnectAttempts = 0 ∧ (onOpen m).1.status = .connected) := by
  refine ⟨rfl, ?_, ?_, ?_, ?_, ?_⟩
  · intro n
    unfold reconnectDelay maxReconnectDelay
    rw [pow_succ]
    generalize (2 : ℕ) ^ n = x
    omega
  · intro n
    exact min_le_right _ _
  · intro m hm
    have hsched : ¬ m.reconnectAttempts ≥ 10 := by omega
    unfold onClose scheduleReconnect setStatus
    by_cases hst : m.status = .disconnected <;>
      simp [hst, hsched]
  · intro m hm
    unfold scheduleReconnect
    simp [hm]
  · intro m
    unfold onOpen setStatus
    by_cases hst : m.status = .connected <;> simp [hst]

/-- Witness for C6 (amended), at concrete inputs: the fourth failure is
retried after 8s (`2 · reconnectDelay 2`), a close at 3 prior attempts arms
the 8s timer, at 10 attempts the give-up branch changes nothing and only
logs, and an open resets the counter. -/
theorem reconnect_backoff_behaviour_witness :
    reconnectDelay 3 = min (2 * reconnectDelay 2) 30000 ∧
    (onClose ⟨.connected, 3, none⟩).1.pendingReconnectDelay =
      some (reconnectDelay 3) ∧
    (scheduleReconnect ⟨.disconnected, 10, none⟩).1 =
      ⟨.disconnected, 10, none⟩ ∧
    (scheduleReconnect ⟨.disconnected, 10, none⟩).2.2 = [] ∧
    (onOpen ⟨.connecting, 4, some 8000⟩).1.reconnectAttempts = 0 :=
  ⟨reconnect_backoff_behaviour.2.1 2,
   (reconnect_backoff_behaviour.2.2.2.1 ⟨.connected, 3, none⟩ (by decide)).1,
   (reconnect_backoff_behaviour.2.2.2.2.1 ⟨.disconnected, 10, none⟩
      (by decide)).1,
   (reconnect_backoff_behaviour.2.2.2.2.1 ⟨.disconnected, 10, none⟩
      (by decide)).2.1,
   (reconnect_backoff_behaviour.2.2.2.2.2 ⟨.connecting, 4, some 8000⟩).1⟩

/-- C7: when a mutation with an attached optimistic-update function is
called and the update completes, `mutate` synchronously applies its cache
writes and only afterwards sends the `MUTATION` frame — the effect trace
places every cache write strictly before the send, and the hook state
returned by the (synchronous) call already holds the updated cache while the
promise is still pending; moreover, a mutation-failure response never writes
the cache, so the optimistic write is not rolled back. -/
theorem optimistic_update_before_send
    (st : MutationHookState) (prog : OptimisticProg) (mutationKeyString : String)
    (mutateArgs : JsValue) (requestId : String)
    (cache' : QueryCacheMap) (writes : List (String × JsValue))
    (hrun : runOptimistic prog st.cache = (cache', writes, none)) :
    (mutate st (some prog) mutationKeyString mutateArgs requestId).state.cache =
      cache' ∧
    (mutate st (some prog) mutationKeyString mutateArgs requestId).effects =
      (writes.map fun w => MutateEffect.cacheWrite w.1 w.2) ++
        [.setLoading true, .clearError,
         .sendMessage (.mutation (some requestId) mutationKeyString mutateArgs)] ∧
    (mutate st (some prog) mutationKeyString mutateArgs requestId).rejectedWith =
      none ∧
    (∀ (s : MutationHookState) (msg : WireMessage),
      (mutationResponseListener s requestId msg).1.cache = s.cache) := by
  refine ⟨?_, ?_, ?_, ?_⟩
  · simp [mutate, hrun, mutateSend]
  · simp [mutate, hrun, mutateSend]
  · simp [mutate, hrun, mutateSend]
  · intro s msg
    unfold mutationResponseListener
    by_cases hid : msg.msgId ≠ some requestId
    · simp [hid]
    · cases msg <;> simp [hid]

/-- Witness for C7: an optimistic update writing the tasks list is applied to
the cache and ordered before the send; an error response for the request
leaves the written cache untouched. -/
theorem optimistic_update_before_send_witness :
    (mutate ⟨[], false, none⟩
        (some (.setQuery "tasks:getTasks" .undef (.arr [.str "t1"]) .done))
        "tasks:createTask" (.obj [("title", .str "t1")]) "m1").effects =
      [MutateEffect.cacheWrite (getQueryCacheKey "tasks:getTasks" .undef)
          (.arr [.str "t1"]),
       .setLoading true, .clearError,
       .sendMessage (.mutation (some "m1") "tasks:createTask"
          (.obj [("title", .str "t1")]))] ∧
    (mutationResponseListener
        ⟨[(getQueryCacheKey "tasks:getTasks" .undef, .arr [.str "t1"])], true,
          none⟩
        "m1" (.error (some "m1") "boom")).1.cache =
      [(getQueryCacheKey "tasks:getTasks" .undef, .arr [.str "t1"])] := by
  have h := optimistic_update_before_send ⟨[], false, none⟩
    (.setQuery "tasks:getTasks" .undef (.arr [.str "t1"]) .done)
    "tasks:createTask" (.obj [("title", .str "t1")]) "m1"
    [(getQueryCacheKey "tasks:getTasks" .undef, .arr [.str "t1"])]
    [(getQueryCacheKey "tasks:getTasks" .undef, .arr [.str "t1"])] rfl
  exact ⟨h.2.1.trans rfl,
    h.2.2.2 ⟨[(getQueryCacheKey "tasks:getTasks" .undef, .arr [.str "t1"])],
      true, none⟩ (.error (some "m1") "boom")⟩

/-- C8: an inbound frame whose raw payload fails `JSON.parse` is answered
with exactly one `ERROR` frame that carries no correlation id (`id = none`),
and the frame receives no further processing — the handler returns right
after the send. -/
theorem invalid_json_single_error_without_id
    (regs : ApiRegistries Handler) (ctx : HandlerContext) (e : String) :
    handleRawMessage regs ctx (.error e) =
      [.toOrigin (.error none ("Invalid JSON message format: " ++ e))] := rfl

/-- C9: the client connection's `onmessage` handler parses every frame with
an unguarded `JSON.parse` and fans the parsed value out: on valid JSON every
registered message listener is invoked, in registration order, with exactly
the parsed value; on invalid JSON the parse exception escapes the handler and
no listener is invoked. -/
theorem connectionOnMessage_fanout_or_escape :
    (∀ (listeners : List Nat) (v : JsValue),
      connectionOnMessage listeners (.ok v) =
        .ok (listeners.map fun listener => (listener, v))) ∧
    (∀ (listeners : List Nat) (e : String),
      connectionOnMessage listeners (.error e) = .error e) :=
  ⟨fun _ _ => rfl, fun _ _ => rfl⟩

/-- C10: when the attached optimistic-update function throws, `mutate`
rejects the returned promise with that exception and returns at once:
no `MUTATION` frame is handed to the connection, the loading flag is never
set (hook state besides the cache is untouched), and the cache retains
exactly the writes the optimistic function performed before throwing. -/
theorem optimistic_throw_rejects_without_send
    (st : MutationHookState) (prog : OptimisticProg) (mutationKeyString : String)
    (mutateArgs : JsValue) (requestId : String)
    (cache' : QueryCacheMap) (writes : List (String × JsValue)) (e : String)
    (hrun : runOptimistic prog st.cache = (cache', writes, some e)) :
    (mutate st (some prog) mutationKeyString mutateArgs requestId).rejectedWith =
      some e ∧
    (∀ msg, MutateEffect.sendMessage msg ∉
      (mutate st (some prog) mutationKeyString mutateArgs requestId).effects) ∧
    (mutate st (some prog) mutationKeyString mutateArgs requestId).state.isLoading =
      st.isLoading ∧
    (mutate st (some prog) mutationKeyString mutateArgs requestId).state.error =
      st.error ∧
    (mutate st (some prog) mutationKeyString mutateArgs requestId).state.cache =
      cache' := by
  refine ⟨?_, ?_, ?_, ?_, ?_⟩ <;>
    simp [mutate, hrun]

/-- Witness for C10: an optimistic function that writes the tasks list and
then throws `"boom"` leaves the write in the cache, rejects with `"boom"`,
and sends nothing. -/
theorem optimistic_throw_rejects_without_send_witness :
    (mutate ⟨[], false, none⟩
        (some (.setQuery "tasks:getTasks" .undef (.arr [.str "t1"])
          (.throwErr "boom")))
        "tasks:createTask" (.obj []) "m2").rejectedWith = some "boom" ∧
    (∀ msg, MutateEffect.sendMessage msg ∉
      (mutate ⟨[], false, none⟩
        (some (.setQuery "tasks:getTasks" .undef (.arr [.str "t1"])
          (.throwErr "boom")))
        "tasks:createTask" (.obj []) "m2").effects) ∧
    (mutate ⟨[], false, none⟩
        (some (.setQuery "tasks:getTasks" .undef (.arr [.str "t1"])
          (.throwErr "boom")))
        "tasks:createTask" (.obj []) "m2").state.cache =
      [(getQueryCacheKey "tasks:getTasks" .undef, .arr [.str "t1"])] := by
  have h := optimistic_throw_rejects_without_send ⟨[], false, none⟩
    (.setQuery "tasks:getTasks" .undef (.arr [.str "t1"]) (.throwErr "boom"))
    "tasks:createTask" (.obj []) "m2"
    [(getQueryCacheKey "tasks:getTasks" .undef, .arr [.str "t1"])]
    [(getQueryCacheKey "tasks:getTasks" .undef, .arr [.str "t1"])] "boom" rfl
  exact ⟨h.1, h.2.1, h.2.2.2.2⟩

end ConvexLite
